import Mathlib

/-!
Shallow embedding of the recommendation core of the `rec-engine` service
(FastAPI + scikit-learn) and proofs about its behaviour.

Source files embedded:
* `app/services/data_preparation.py`   (feature extraction)
* `app/services/recommendation_service.py` (scoring, ranking, synthesis)
* `app/models/simple_recommender.py`   (predictive model lifecycle)
* `app/main.py`                        (error mapping of the endpoint)

Modelling conventions:
* Python floats are modelled as `ℚ`; every constant in the source
  (5.0, 1.0, 0.5, 0.7, -60, 120, ...) is used only in strict comparisons
  far from any float-rounding edge case touched by the statements below.
* pandas NaN-able columns are `Option` values; a `pd.notna(x)` guard with
  fallback 0 becomes `Option.getD x 0`.
* The scikit-learn classifier together with its `StandardScaler` is an
  opaque fallible function `Features → Except String (List ℚ)` stored in
  the `SimpleRecommender`; a Python exception raised inside the trained
  prediction path is `Except.error`.
* `recommendations.sort(key=lambda x: x.priority, reverse=True)` (CPython
  Timsort, a stable sort) is modelled by the stable insertion sort
  `sortByPriorityDesc`; stability is proved below, so the two agree.
* The filesystem touched by `SimpleRecommender.save` is an association
  list from paths to saved artifacts, threaded explicitly; an
  `Except.error` result leaves it untouched.
-/

/-- Characters of a Python string lower-cased, as in `str(name).lower()`. -/
def lowerChars (s : String) : List Char := s.data.map Char.toLower

/-- Tests whether the first character list is a prefix of the second. -/
def charsStartWith : List Char → List Char → Bool
  | [], _ => true
  | _ :: _, [] => false
  | a :: as, b :: bs => a == b && charsStartWith as bs

/-- Python substring containment `needle in hay`, on character lists. -/
def charsContain (needle : List Char) : List Char → Bool
  | [] => charsStartWith needle []
  | b :: rest => charsStartWith needle (b :: rest) || charsContain needle rest

/-- Keyword set used for `has_cardio` in `prepare_features_for_ml`. -/
def cardio_keywords : List (List Char) :=
  ["cardio", "hiit", "running", "endurance"].map String.data

/-- Keyword set used for `has_strength` in `prepare_features_for_ml`. -/
def strength_keywords : List (List Char) :=
  ["strength", "weight", "lifting", "power"].map String.data

/-- The characters of "cardio", the keyword of the cardio score bonus. -/
def cardio_chars : List Char := String.data "cardio"

/-- The characters of "strength", first keyword of the strength bonus. -/
def strength_chars : List Char := String.data "strength"

/-- The characters of "weight", second keyword of the strength bonus. -/
def weight_chars : List Char := String.data "weight"

/-- One row of the `fetch_user_routines` result (columns actually read by
the service: `id` and `name`; `description` and `estimated_duration` are
fetched but unused by the scoring logic). -/
structure RoutineRow where
  id : String
  name : String
  description : String
  estimated_duration : ℤ
deriving DecidableEq, Repr

/-- One row of the `fetch_user_workout_data` result, restricted to the
columns read by `prepare_features_for_ml`.  The per-user window aggregates
(`completion_rate`, ...) are repeated on every row by the SQL query; the
extractor reads them from the first row.  NaN-able numeric columns are
`Option`s. -/
structure WorkoutRow where
  completed : Bool
  final_duration : Option ℚ
  completion_rate : Option ℚ
  avg_time_delta : Option ℚ
  total_workouts : Option ℤ
  completed_workouts : Option ℤ
deriving DecidableEq, Repr

/-- The feature dictionary built by `prepare_features_for_ml`. -/
structure Features where
  completion_rate : ℚ
  avg_time_delta : ℚ
  total_workouts : ℤ
  completed_workouts : ℤ
  has_cardio : Bool
  has_strength : Bool
  avg_duration : ℚ
deriving DecidableEq, Repr

/-- Embedding of `prepare_features_for_ml(workout_df, routines_df)`. -/
def prepare_features_for_ml (workout_df : List WorkoutRow)
    (routines_df : List RoutineRow) : Features :=
  match workout_df with
  | [] =>
    { completion_rate := 0, avg_time_delta := 0, total_workouts := 0,
      completed_workouts := 0, has_cardio := false, has_strength := false,
      avg_duration := 0 }
  | w :: _ =>
    let routine_names :=
      List.intercalate [' '] (routines_df.map (fun r => lowerChars r.name))
    let completed := workout_df.filter (fun r => r.completed)
    let durations := completed.filterMap (fun r => r.final_duration)
    { completion_rate := w.completion_rate.getD 0
      avg_time_delta := w.avg_time_delta.getD 0
      total_workouts := w.total_workouts.getD 0
      completed_workouts := w.completed_workouts.getD 0
      has_cardio := !routines_df.isEmpty &&
        cardio_keywords.any (fun word => charsContain word routine_names)
      has_strength := !routines_df.isEmpty &&
        strength_keywords.any (fun word => charsContain word routine_names)
      avg_duration :=
        if !completed.isEmpty && !durations.isEmpty then
          (durations.sum / (durations.length : ℚ)) / 60
        else 0 }

/-- State of `SimpleRecommender`: the fitted classifier (with its scaler
folded in) is an opaque fallible prediction function, `none` when unset. -/
structure SimpleRecommender where
  model : Option (Features → Except String (List ℚ))
  is_trained : Bool

/-- Embedding of `SimpleRecommender.predict`: untrained (or classifier
is `None`) returns the neutral default `[0.5, 0.5]`, otherwise runs the
fitted pipeline, which may raise. -/
def SimpleRecommender.predict (self : SimpleRecommender)
    (user_features : Features) : Except String (List ℚ) :=
  match self.is_trained, self.model with
  | true, some m => m user_features
  | _, _ => Except.ok [mkRat 1 2, mkRat 1 2]

/-- Artifact written by `SimpleRecommender.save` (model, scaler and
trained flag as one unit; scaler folded into the model function). -/
structure SavedArtifact where
  model : Option (Features → Except String (List ℚ))
  is_trained : Bool

/-- Embedding of `SimpleRecommender.save`: raises `ValueError` when the
model is untrained (filesystem unchanged), otherwise writes one artifact
at `filepath`. -/
def SimpleRecommender.save (self : SimpleRecommender) (filepath : String)
    (fs : List (String × SavedArtifact)) :
    Except String (List (String × SavedArtifact)) :=
  if !self.is_trained then
    Except.error "Model must be trained before saving"
  else
    Except.ok
      ((filepath, { model := self.model, is_trained := self.is_trained }) :: fs)

/-- Embedding of `RecommendationService._calculate_rule_based_score`. -/
def calculate_rule_based_score (row : RoutineRow) (features : Features) : ℚ :=
  let score : ℚ := 5
  let score := if features.completion_rate > mkRat 7 10 then score + 1 else score
  let score := if features.avg_time_delta < -60 then score + 1 else score
  let routine_name_lower := lowerChars row.name
  let score :=
    if features.has_cardio && charsContain cardio_chars routine_name_lower
    then score + mkRat 1 2 else score
  let score :=
    if features.has_strength &&
        (charsContain strength_chars routine_name_lower ||
         charsContain weight_chars routine_name_lower)
    then score + mkRat 1 2 else score
  score

/-- An apostrophe, kept out of string literals. -/
def apos : String := String.singleton (Char.ofNat 39)

/-- The fixed model-path reasoning sentence of
`_generate_reasoning_for_existing_routine`. -/
def ml_reasoning_text : String :=
  "ML model predicts you" ++ apos ++
    "ll like this routine based on your workout patterns"

/-- Embedding of
`RecommendationService._generate_reasoning_for_existing_routine`. -/
def generate_reasoning_for_existing_routine (routine_row : RoutineRow)
    (features : Features) (use_ml : Bool) : String :=
  let routine_name := lowerChars routine_row.name
  let reasons : List String :=
    if use_ml then [ml_reasoning_text]
    else
      (if features.completion_rate > mkRat 7 10
        then ["You have a high completion rate"] else []) ++
      (if features.avg_time_delta < -60
        then ["you finish workouts efficiently"] else []) ++
      (if charsContain cardio_chars routine_name && features.has_cardio
        then ["matches your cardio preferences"] else []) ++
      (if (charsContain strength_chars routine_name ||
           charsContain weight_chars routine_name) && features.has_strength
        then ["aligns with your strength training"] else [])
  let reasons :=
    if reasons.isEmpty then ["this routine matches your current fitness level"]
    else reasons
  "Recommended because " ++ String.intercalate ", " reasons ++ "."

/-- Python `int(x)` on a rational: truncation toward zero. -/
def truncToInt (q : ℚ) : ℤ := q.num.tdiv (q.den : ℤ)

/-- Schema `ExistingRoutineRecommendation` (routine id, reasoning,
priority). -/
structure ExistingRoutineRecommendation where
  routine_id : String
  reasoning : String
  priority : ℤ
deriving DecidableEq, Repr

/-- Schema `Exercise`. -/
structure Exercise where
  name : String
  sets : ℤ
  reps : ℤ
  notes : Option String
deriving DecidableEq, Repr

/-- Schema `NewRoutineRecommendation`. -/
structure NewRoutineRecommendation where
  name : String
  description : String
  estimated_duration : ℤ
  exercises : List Exercise
  reasoning : String
  priority : ℤ
deriving DecidableEq, Repr

/-- Schema `RecommendationResponse`. -/
structure RecommendationResponse where
  existing_routines : List ExistingRoutineRecommendation
  new_routines : List NewRoutineRecommendation
deriving DecidableEq, Repr

/-- Template of `_create_quick_workout_routine` (the `features` argument
of the source constructor is unused; the content is static). -/
def create_quick_workout_routine : NewRoutineRecommendation :=
  { name := "Quick 20-Minute HIIT"
    description := "A fast-paced workout designed to improve time efficiency and build consistency."
    estimated_duration := 20
    exercises :=
      [ { name := "Burpees", sets := 3, reps := 10, notes := some "Keep your back straight" },
        { name := "Mountain Climbers", sets := 3, reps := 20, notes := some "Maintain steady pace" },
        { name := "Jump Squats", sets := 3, reps := 15, notes := some "Land softly" },
        { name := "Plank Hold", sets := 3, reps := 30, notes := some "Hold for 30 seconds" } ]
    reasoning := "This shorter routine will help you build consistency and improve completion rates."
    priority := 9 }

/-- Template of `_create_time_efficient_routine`. -/
def create_time_efficient_routine : NewRoutineRecommendation :=
  { name := "Time-Efficient Power Session"
    description := "A focused workout designed to maximize results in minimal time."
    estimated_duration := 25
    exercises :=
      [ { name := "Thrusters", sets := 4, reps := 8, notes := some "Full range of motion" },
        { name := "Kettlebell Swings", sets := 3, reps := 15, notes := some "Use proper form" },
        { name := "Box Jumps", sets := 3, reps := 10, notes := some "Step down safely" },
        { name := "Battle Ropes", sets := 3, reps := 30, notes := some "30 seconds on, 30 seconds rest" } ]
    reasoning := "This routine focuses on efficiency and will help you improve time management."
    priority := 8 }

/-- Template of `_create_cardio_routine`. -/
def create_cardio_routine : NewRoutineRecommendation :=
  { name := "Cardio Endurance Builder"
    description := "A cardio-focused routine to improve endurance and cardiovascular fitness."
    estimated_duration := 30
    exercises :=
      [ { name := "Running", sets := 1, reps := 1, notes := some "20 minutes steady pace" },
        { name := "Jump Rope", sets := 3, reps := 100, notes := some "Maintain rhythm" },
        { name := "High Knees", sets := 3, reps := 30, notes := some "Lift knees to hip height" },
        { name := "Burpees", sets := 3, reps := 10, notes := some "Full movement, maintain pace" } ]
    reasoning := "This routine targets cardio endurance and helps build cardiovascular fitness."
    priority := 8 }

/-- Template of `_create_strength_routine`. -/
def create_strength_routine : NewRoutineRecommendation :=
  { name := "Strength Foundation Builder"
    description := "A strength-focused routine to build muscle and power."
    estimated_duration := 35
    exercises :=
      [ { name := "Deadlifts", sets := 4, reps := 6, notes := some "Keep back straight" },
        { name := "Bench Press", sets := 4, reps := 8, notes := some "Control the weight" },
        { name := "Squats", sets := 4, reps := 10, notes := some "Full depth" },
        { name := "Pull-ups", sets := 3, reps := 8, notes := some "Full range of motion" } ]
    reasoning := "This routine focuses on building strength and power."
    priority := 8 }

/-- Template of `_create_balanced_routine`. -/
def create_balanced_routine : NewRoutineRecommendation :=
  { name := "Full Body Blast"
    description := "A balanced full-body workout targeting all major muscle groups."
    estimated_duration := 30
    exercises :=
      [ { name := "Burpees", sets := 3, reps := 10, notes := some "Full movement" },
        { name := "Push-ups", sets := 3, reps := 15, notes := some "Keep core engaged" },
        { name := "Squats", sets := 3, reps := 20, notes := some "Full depth" },
        { name := "Plank", sets := 3, reps := 45, notes := some "Hold for 45 seconds" },
        { name := "Mountain Climbers", sets := 3, reps := 20, notes := some "Steady pace" } ]
    reasoning := "This balanced routine provides a complete full-body workout."
    priority := 7 }

/-- The `use_ml` guard of `_recommend_existing_routines`: the model
reports trained and holds a non-null fitted classifier. -/
def use_ml (self : SimpleRecommender) : Bool :=
  self.is_trained && self.model.isSome

/-- The float score one candidate row receives inside the loop of
`_recommend_existing_routines`: the ML prediction scaled by 10 on the
model path, with a per-candidate catch that falls back to the rule-based
score when the prediction raises. -/
def candidate_score (self : SimpleRecommender) (row : RoutineRow)
    (features : Features) : ℚ :=
  if use_ml self then
    match self.predict features with
    | Except.ok prediction =>
        (if prediction.length > 1 then prediction.getD 1 0 else mkRat 1 2) * 10
    | Except.error _ => calculate_rule_based_score row features
  else calculate_rule_based_score row features

/-- The loop body of `_recommend_existing_routines`, before sorting and
truncation: one scored recommendation per routine row, in encounter
order.  The reasoning is keyed on `use_ml`, not on whether the
per-candidate fallback fired. -/
def scored_candidates (self : SimpleRecommender)
    (routines_df : List RoutineRow) (features : Features) :
    List ExistingRoutineRecommendation :=
  routines_df.map (fun row =>
    { routine_id := row.id
      reasoning := generate_reasoning_for_existing_routine row features (use_ml self)
      priority := min 10 (max 1 (truncToInt (candidate_score self row features))) })

/-- Stable insertion into a descending-priority list: the new element is
placed before the first element whose priority is not greater than its
own. -/
def insertDesc (x : ExistingRoutineRecommendation) :
    List ExistingRoutineRecommendation → List ExistingRoutineRecommendation
  | [] => [x]
  | y :: ys => if x.priority < y.priority then y :: insertDesc x ys else x :: y :: ys

/-- Stable sort by priority descending, the model of CPython's stable
`list.sort(key=lambda x: x.priority, reverse=True)`. -/
def sortByPriorityDesc :
    List ExistingRoutineRecommendation → List ExistingRoutineRecommendation
  | [] => []
  | x :: xs => insertDesc x (sortByPriorityDesc xs)

/-- Embedding of `RecommendationService._recommend_existing_routines`:
empty library short-circuits to `[]`; otherwise score every row, sort by
priority descending (stable) and keep the top 5. -/
def recommend_existing_routines (self : SimpleRecommender)
    (routines_df : List RoutineRow) (features : Features) :
    List ExistingRoutineRecommendation :=
  if routines_df.isEmpty then []
  else (sortByPriorityDesc (scored_candidates self routines_df features)).take 5

/-- The synthesized-routine list of `_generate_new_routines` before the
final `[:3]` truncation, built in the source's fixed evaluation order. -/
def new_routines_raw (features : Features) : List NewRoutineRecommendation :=
  let routines :=
    (if features.completion_rate < mkRat 1 2 then [create_quick_workout_routine] else []) ++
    (if features.avg_time_delta > 120 then [create_time_efficient_routine] else []) ++
    (if !features.has_cardio then [create_cardio_routine] else []) ++
    (if !features.has_strength then [create_strength_routine] else [])
  if routines.isEmpty then [create_balanced_routine] else routines

/-- Embedding of `RecommendationService._generate_new_routines`. -/
def generate_new_routines (features : Features) : List NewRoutineRecommendation :=
  (new_routines_raw features).take 3

/-- Embedding of `_generate_default_recommendations`. -/
def generate_default_recommendations : RecommendationResponse :=
  { existing_routines := [], new_routines := [create_balanced_routine] }

/-- The post-fetch part of `generate_recommendations`: both frames empty
short-circuits to the default response, otherwise extract features, score
the library and synthesize new routines. -/
def generate_recommendations_core (self : SimpleRecommender)
    (workout_df : List WorkoutRow) (routines_df : List RoutineRow) :
    RecommendationResponse :=
  if workout_df.isEmpty && routines_df.isEmpty then
    generate_default_recommendations
  else
    let features := prepare_features_for_ml workout_df routines_df
    { existing_routines := recommend_existing_routines self routines_df features
      new_routines := generate_new_routines features }

/-- A Python exception crossing the service boundary: either a
`ValueError` or any other exception. -/
inductive PyError where
  | valueError (msg : String)
  | otherError (msg : String)
deriving DecidableEq, Repr

/-- Embedding of `RecommendationService.generate_recommendations` with
the two collaborator fetches passed as fallible functions of the user id;
a fetch failure propagates, nothing else raises. -/
def generate_recommendations (self : SimpleRecommender)
    (fetch_user_workout_data : String → Except PyError (List WorkoutRow))
    (fetch_user_routines : String → Except PyError (List RoutineRow))
    (user_id : String) : Except PyError RecommendationResponse :=
  match fetch_user_workout_data user_id with
  | Except.error e => Except.error e
  | Except.ok workout_df =>
    match fetch_user_routines user_id with
    | Except.error e => Except.error e
    | Except.ok routines_df =>
        Except.ok (generate_recommendations_core self workout_df routines_df)

/-- Error kinds of the `/recommendations` endpoint: HTTP 400 for the
`ValidationError` kind, HTTP 500 for the `InternalError` kind. -/
inductive ApiError where
  | validationError (detail : String)
  | internalError (detail : String)
deriving DecidableEq, Repr

/-- Embedding of the `get_recommendations` endpoint handler of
`app/main.py`: a `ValueError` becomes a 400 `ValidationError`, any other
exception becomes a 500 `InternalError`; the handler itself checks
nothing about `user_id`. -/
def get_recommendations (self : SimpleRecommender)
    (fetch_user_workout_data : String → Except PyError (List WorkoutRow))
    (fetch_user_routines : String → Except PyError (List RoutineRow))
    (user_id : String) : Except ApiError RecommendationResponse :=
  match generate_recommendations self fetch_user_workout_data
      fetch_user_routines user_id with
  | Except.ok recommendations => Except.ok recommendations
  | Except.error (PyError.valueError m) =>
      Except.error (ApiError.validationError m)
  | Except.error (PyError.otherError m) =>
      Except.error (ApiError.internalError ("Failed to generate recommendations: " ++ m))

/-- Membership in a stable descending insertion. -/
theorem mem_insertDesc {a x : ExistingRoutineRecommendation}
    {l : List ExistingRoutineRecommendation} :
    a ∈ insertDesc x l ↔ a = x ∨ a ∈ l := by
  induction l with
  | nil => simp [insertDesc]
  | cons y ys ih =>
    by_cases h : x.priority < y.priority
    · simp only [insertDesc, if_pos h, List.mem_cons, ih]
      tauto
    · simp only [insertDesc, if_neg h, List.mem_cons]

/-- Inserting into a descending-sorted list keeps it descending-sorted. -/
theorem sorted_insertDesc {x : ExistingRoutineRecommendation}
    {l : List ExistingRoutineRecommendation}
    (h : l.Pairwise (fun a b => b.priority ≤ a.priority)) :
    (insertDesc x l).Pairwise (fun a b => b.priority ≤ a.priority) := by
  induction l with
  | nil => simp [insertDesc]
  | cons y ys ih =>
    rw [List.pairwise_cons] at h
    obtain ⟨hy, hys⟩ := h
    by_cases hxy : x.priority < y.priority
    · rw [insertDesc, if_pos hxy]
      refine List.pairwise_cons.mpr ⟨?_, ih hys⟩
      intro z hz
      rcases mem_insertDesc.mp hz with rfl | hz
      · exact le_of_lt hxy
      · exact hy z hz
    · rw [insertDesc, if_neg hxy]
      refine List.pairwise_cons.mpr ⟨?_, List.pairwise_cons.mpr ⟨hy, hys⟩⟩
      intro z hz
      rcases List.mem_cons.mp hz with rfl | hz
      · exact not_lt.mp hxy
      · exact le_trans (hy z hz) (not_lt.mp hxy)

/-- The stable sort produces a descending-sorted list. -/
theorem sorted_sortByPriorityDesc (l : List ExistingRoutineRecommendation) :
    (sortByPriorityDesc l).Pairwise (fun a b => b.priority ≤ a.priority) := by
  induction l with
  | nil => exact List.Pairwise.nil
  | cons x xs ih => exact sorted_insertDesc ih

/-- Filtering one priority class commutes with a stable insertion: the
inserted element lands behind nothing of its own priority. -/
theorem filter_insertDesc (p : ℤ) (x : ExistingRoutineRecommendation)
    (l : List ExistingRoutineRecommendation) :
    (insertDesc x l).filter (fun r => r.priority == p) =
      if x.priority == p then x :: l.filter (fun r => r.priority == p)
      else l.filter (fun r => r.priority == p) := by
  induction l with
  | nil => by_cases hxp : x.priority = p <;> simp [insertDesc, List.filter_cons, hxp]
  | cons y ys ih =>
    by_cases hxy : x.priority < y.priority
    · rw [insertDesc, if_pos hxy, List.filter_cons, ih, List.filter_cons]
      by_cases hxp : x.priority = p
      · have hyp : ¬ (y.priority = p) := by intro hy; omega
        simp [hxp, hyp]
      · by_cases hyp : y.priority = p <;> simp [hxp, hyp]
    · rw [insertDesc, if_neg hxy, List.filter_cons]

/-- Stability of the sort: every priority class of the sorted list is the
priority class of the input, in the input's order. -/
theorem filter_sortByPriorityDesc (p : ℤ)
    (l : List ExistingRoutineRecommendation) :
    (sortByPriorityDesc l).filter (fun r => r.priority == p) =
      l.filter (fun r => r.priority == p) := by
  induction l with
  | nil => rfl
  | cons x xs ih =>
    rw [sortByPriorityDesc, filter_insertDesc, ih, List.filter_cons]

/-- Sorting a list whose priorities are all equal is the identity. -/
theorem sortByPriorityDesc_all_eq {c : ℤ}
    {l : List ExistingRoutineRecommendation}
    (h : ∀ a ∈ l, a.priority = c) : sortByPriorityDesc l = l := by
  induction l with
  | nil => rfl
  | cons x xs ih =>
    have hx : x.priority = c := h x (List.mem_cons_self x xs)
    have hxs : ∀ a ∈ xs, a.priority = c := fun a ha => h a (List.mem_cons_of_mem _ ha)
    rw [sortByPriorityDesc, ih hxs]
    cases xs with
    | nil => rfl
    | cons y ys =>
      have hy : y.priority = c := hxs y (List.mem_cons_self y ys)
      rw [insertDesc, if_neg (by rw [hx, hy]; exact lt_irrefl c)]

/-- Truncation toward zero agrees with the floor on the nonnegatives. -/
theorem truncToInt_of_nonneg {q : ℚ} (hq : 0 ≤ q) : truncToInt q = ⌊q⌋ := by
  rw [truncToInt, Int.tdiv_eq_ediv (Rat.num_nonneg.mpr hq) (Int.natCast_nonneg _),
    Rat.floor_def]

/-- Truncation toward zero agrees with the ceiling on the negatives. -/
theorem truncToInt_of_neg {q : ℚ} (hq : q < 0) : truncToInt q = ⌈q⌉ := by
  have h1 : truncToInt q = -(truncToInt (-q)) := by
    rw [truncToInt, truncToInt, Rat.neg_num, Rat.neg_den, Int.neg_tdiv, neg_neg]
  rw [h1, truncToInt_of_nonneg (by linarith), Int.floor_neg, neg_neg]

/-- Membership is preserved by the stable sort. -/
theorem mem_sortByPriorityDesc {a : ExistingRoutineRecommendation}
    {l : List ExistingRoutineRecommendation} :
    a ∈ sortByPriorityDesc l ↔ a ∈ l := by
  induction l with
  | nil => exact Iff.rfl
  | cons x xs ih =>
    rw [sortByPriorityDesc, mem_insertDesc, List.mem_cons, ih]

/-- The freshly constructed recommender of `SimpleRecommender.__init__`:
no classifier, untrained. -/
def untrained_recommender : SimpleRecommender :=
  { model := none, is_trained := false }

/-- A trained recommender whose prediction pipeline always succeeds. -/
def trained_recommender : SimpleRecommender :=
  { model := some (fun _ => Except.ok [mkRat 3 10, mkRat 7 10]),
    is_trained := true }

/-- A prediction pipeline that always raises, as scikit-learn does when
the inference-time feature frame does not match the fitted scaler. -/
def throwing_model : Features → Except String (List ℚ) :=
  fun _ => Except.error "X has 7 features, but StandardScaler is expecting 2 features as input"

/-- A trained recommender whose prediction pipeline always raises. -/
def throwing_recommender : SimpleRecommender :=
  { model := some throwing_model, is_trained := true }

/-- A routine row whose name matches no scoring keyword. -/
def sample_routine_row : RoutineRow :=
  { id := "r1", name := "Morning Mobility",
    description := "Gentle stretch session", estimated_duration := 30 }

/-- The all-default feature vector produced for an empty workout
history. -/
def features_zero : Features :=
  { completion_rate := 0, avg_time_delta := 0, total_workouts := 0,
    completed_workouts := 0, has_cardio := false, has_strength := false,
    avg_duration := 0 }

/-- Feature vector of end-to-end scenario A: completion rate 0.8, average
time delta -90, no cardio or strength keywords in the library. -/
def features_scenario_a : Features :=
  { completion_rate := mkRat 4 5, avg_time_delta := -90, total_workouts := 10,
    completed_workouts := 8, has_cardio := false, has_strength := false,
    avg_duration := 30 }

/-- Feature vector of end-to-end scenario C: completion rate 0.3, average
time delta 150, both cardio and strength present. -/
def features_scenario_c : Features :=
  { completion_rate := mkRat 3 10, avg_time_delta := 150, total_workouts := 10,
    completed_workouts := 3, has_cardio := true, has_strength := true,
    avg_duration := 40 }

/-- C1 counterexample: the claim says a malformed (here: empty) `user_id`
makes the operation fail with a `ValidationError` kind rather than return
a normal recommendation response.  In the code no user-id validation
exists: with the empty user id, whose queries match no rows, the endpoint
returns the normal default recommendation response. -/
theorem c1_counterexample :
    get_recommendations untrained_recommender
      (fun _ => Except.ok []) (fun _ => Except.ok []) "" =
      Except.ok generate_default_recommendations := rfl

/-- C1 (amended): `generate_recommendations` performs no validation of
`user_id`; whenever both collaborator fetches succeed the endpoint
returns a normal recommendation response, for every user id including the
empty string.  A `ValidationError` kind would only arise from a
collaborator raising `ValueError`. -/
theorem c1_no_user_id_validation (self : SimpleRecommender)
    (fetchW : String → Except PyError (List WorkoutRow))
    (fetchR : String → Except PyError (List RoutineRow))
    (user_id : String) (workout_df : List WorkoutRow)
    (routines_df : List RoutineRow)
    (hw : fetchW user_id = Except.ok workout_df)
    (hr : fetchR user_id = Except.ok routines_df) :
    get_recommendations self fetchW fetchR user_id =
      Except.ok (generate_recommendations_core self workout_df routines_df) := by
  unfold get_recommendations generate_recommendations
  rw [hw, hr]

/-- Witness for C1: the amended theorem applied at a concrete state,
fetches and user id. -/
theorem c1_witness :
    get_recommendations untrained_recommender (fun _ => Except.ok [])
      (fun _ => Except.ok [sample_routine_row]) "user-42" =
      Except.ok (generate_recommendations_core untrained_recommender []
        [sample_routine_row]) :=
  c1_no_user_id_validation untrained_recommender _ _ "user-42" [] [sample_routine_row] rfl rfl

/-- C2: when the fetched workout history and routine library are both
empty, the response has no existing-routine recommendations and exactly
one new recommendation, the balanced full-body template, at priority 7. -/
theorem c2_both_empty_default (self : SimpleRecommender)
    (fetchW : String → Except PyError (List WorkoutRow))
    (fetchR : String → Except PyError (List RoutineRow))
    (user_id : String)
    (hw : fetchW user_id = Except.ok [])
    (hr : fetchR user_id = Except.ok []) :
    get_recommendations self fetchW fetchR user_id =
      Except.ok { existing_routines := [],
                  new_routines := [create_balanced_routine] } ∧
    create_balanced_routine.priority = 7 ∧
    create_balanced_routine.name = "Full Body Blast" := by
  refine ⟨?_, rfl, rfl⟩
  unfold get_recommendations generate_recommendations
  rw [hw, hr]
  rfl

/-- Witness for C2 at concrete fetches and user id. -/
theorem c2_witness :
    get_recommendations untrained_recommender (fun _ => Except.ok [])
      (fun _ => Except.ok []) "user-7" =
      Except.ok { existing_routines := [],
                  new_routines := [create_balanced_routine] } ∧
    create_balanced_routine.priority = 7 ∧
    create_balanced_routine.name = "Full Body Blast" :=
  c2_both_empty_default untrained_recommender _ _ "user-7" rfl rfl

/-- C3: the rule-based score is base 5 plus 1 for completion rate above
0.7, plus 1 for average time delta below -60, plus 0.5 for a cardio
keyword match, plus 0.5 for a strength keyword match, with no penalties
(so never below 5); with completion rate 0.8, time delta -90 and no
keyword match the score is 7. -/
theorem c3_rule_based_score_formula :
    (∀ (row : RoutineRow) (f : Features),
      calculate_rule_based_score row f =
        5 + (if f.completion_rate > mkRat 7 10 then 1 else 0)
          + (if f.avg_time_delta < -60 then 1 else 0)
          + (if f.has_cardio && charsContain cardio_chars (lowerChars row.name)
              then mkRat 1 2 else 0)
          + (if f.has_strength &&
                (charsContain strength_chars (lowerChars row.name) ||
                 charsContain weight_chars (lowerChars row.name))
              then mkRat 1 2 else 0)) ∧
    (∀ (row : RoutineRow) (f : Features),
      5 ≤ calculate_rule_based_score row f) ∧
    calculate_rule_based_score sample_routine_row features_scenario_a = 7 := by
  have hformula : ∀ (row : RoutineRow) (f : Features),
      calculate_rule_based_score row f =
        5 + (if f.completion_rate > mkRat 7 10 then 1 else 0)
          + (if f.avg_time_delta < -60 then 1 else 0)
          + (if f.has_cardio && charsContain cardio_chars (lowerChars row.name)
              then mkRat 1 2 else 0)
          + (if f.has_strength &&
                (charsContain strength_chars (lowerChars row.name) ||
                 charsContain weight_chars (lowerChars row.name))
              then mkRat 1 2 else 0) := by
    intro row f
    simp only [calculate_rule_based_score]
    split_ifs <;> ring
  refine ⟨hformula, ?_, ?_⟩
  · intro row f
    rw [hformula]
    have hhalf : (0:ℚ) ≤ mkRat 1 2 := by decide
    split_ifs <;> linarith
  · rw [hformula]
    have h1 : features_scenario_a.completion_rate > mkRat 7 10 := by decide
    have h2 : features_scenario_a.avg_time_delta < -60 := by decide
    have h3 : features_scenario_a.has_cardio = false := rfl
    have h4 : features_scenario_a.has_strength = false := rfl
    rw [if_pos h1, if_pos h2, h3, h4]
    norm_num

/-- C4: the final priority of an existing-routine recommendation is
`min 10 (max 1 (truncToInt score))`, where `truncToInt` truncates toward
zero (floor on nonnegatives, ceiling on negatives, so 5.999 becomes 5),
and every emitted priority is an integer between 1 and 10. -/
theorem c4_priority_clamp :
    (∀ q : ℚ, 0 ≤ q → truncToInt q = ⌊q⌋) ∧
    (∀ q : ℚ, q < 0 → truncToInt q = ⌈q⌉) ∧
    min 10 (max 1 (truncToInt (mkRat 5999 1000))) = 5 ∧
    (∀ (self : SimpleRecommender) (routines : List RoutineRow) (f : Features)
        (rec : ExistingRoutineRecommendation),
      rec ∈ recommend_existing_routines self routines f →
      (1 ≤ rec.priority ∧ rec.priority ≤ 10) ∧
      ∃ row ∈ routines,
        rec.priority = min 10 (max 1 (truncToInt (candidate_score self row f)))) := by
  refine ⟨fun q hq => truncToInt_of_nonneg hq, fun q hq => truncToInt_of_neg hq,
    by decide, ?_⟩
  intro self routines f rec hmem
  unfold recommend_existing_routines at hmem
  by_cases hre : routines.isEmpty
  · rw [if_pos hre] at hmem
    exact absurd hmem (List.not_mem_nil rec)
  · rw [if_neg hre] at hmem
    have hmem2 : rec ∈ sortByPriorityDesc (scored_candidates self routines f) :=
      List.mem_of_mem_take hmem
    have hmem3 : rec ∈ scored_candidates self routines f :=
      mem_sortByPriorityDesc.mp hmem2
    unfold scored_candidates at hmem3
    obtain ⟨row, hrow, hrec⟩ := List.mem_map.mp hmem3
    refine ⟨⟨?_, ?_⟩, row, hrow, ?_⟩
    · rw [← hrec]
      exact le_min (by norm_num) (le_max_left 1 _)
    · rw [← hrec]
      exact min_le_left 10 _
    · rw [← hrec]

/-- Witness for C4: the clamp bounds at a concrete recommendation list. -/
theorem c4_witness :
    (1 ≤ (ExistingRoutineRecommendation.mk "r1"
        "Recommended because this routine matches your current fitness level." 5).priority ∧
      (ExistingRoutineRecommendation.mk "r1"
        "Recommended because this routine matches your current fitness level." 5).priority ≤ 10) ∧
    ∃ row ∈ [sample_routine_row],
      (ExistingRoutineRecommendation.mk "r1"
        "Recommended because this routine matches your current fitness level." 5).priority =
        min 10 (max 1 (truncToInt (candidate_score untrained_recommender row features_zero))) :=
  c4_priority_clamp.2.2.2 untrained_recommender [sample_routine_row] features_zero
    (ExistingRoutineRecommendation.mk "r1"
      "Recommended because this routine matches your current fitness level." 5)
    (by decide)

/-- C5: new-routine synthesis checks the weakness conditions in a fixed
order (quick-workout 9, time-efficient 8, cardio 8, strength 8, balanced
7 only when nothing triggered), then truncates to at most 3 keeping the
generation order (the output is a prefix of the untruncated list, never
re-sorted); for completion rate 0.3, time delta 150 and both cardio and
strength present the result is exactly [quick-workout, time-efficient]. -/
theorem c5_new_routine_order :
    (∀ f : Features, generate_new_routines f = (new_routines_raw f).take 3) ∧
    (∀ f : Features, (generate_new_routines f).length ≤ 3) ∧
    (∀ f : Features, ∃ t, generate_new_routines f ++ t = new_routines_raw f) ∧
    (∀ f : Features, f.completion_rate < mkRat 1 2 → 120 < f.avg_time_delta →
      f.has_cardio = true → f.has_strength = true →
      generate_new_routines f =
        [create_quick_workout_routine, create_time_efficient_routine]) ∧
    generate_new_routines features_scenario_c =
      [create_quick_workout_routine, create_time_efficient_routine] ∧
    (generate_new_routines features_scenario_c).length = 2 ∧
    create_quick_workout_routine.priority = 9 ∧
    create_time_efficient_routine.priority = 8 := by
  have h4 : ∀ f : Features, f.completion_rate < mkRat 1 2 →
      120 < f.avg_time_delta → f.has_cardio = true → f.has_strength = true →
      generate_new_routines f =
        [create_quick_workout_routine, create_time_efficient_routine] := by
    intro f h1 h2 h3 hs
    unfold generate_new_routines new_routines_raw
    rw [if_pos h1, if_pos h2, h3, hs]
    rfl
  refine ⟨fun f => rfl, fun f => List.length_take_le 3 _,
    fun f => ⟨(new_routines_raw f).drop 3, List.take_append_drop 3 _⟩,
    h4, ?_, ?_, rfl, rfl⟩
  · exact h4 features_scenario_c (by decide) (by decide) rfl rfl
  · rw [h4 features_scenario_c (by decide) (by decide) rfl rfl]
    rfl

/-- Witness for C5: the ordered-synthesis conjunct applied at the
scenario-C feature vector. -/
theorem c5_witness :
    generate_new_routines features_scenario_c =
      [create_quick_workout_routine, create_time_efficient_routine] :=
  c5_new_routine_order.2.2.2.1 features_scenario_c (by decide) (by decide) rfl rfl

/-- C6: the existing-recommendation list is sorted by priority
descending, has length at most 5, and is stable: each priority class of
the output is a sublist of the priority class of the scored candidates in
encounter order, and the underlying sort permutes no priority class at
all. -/
theorem c6_sorted_stable_top5 :
    ∀ (self : SimpleRecommender) (routines : List RoutineRow) (f : Features),
    (recommend_existing_routines self routines f).length ≤ 5 ∧
    (recommend_existing_routines self routines f).Pairwise
      (fun a b => b.priority ≤ a.priority) ∧
    (∀ p : ℤ,
      ((recommend_existing_routines self routines f).filter
          (fun r => r.priority == p)).Sublist
        ((scored_candidates self routines f).filter (fun r => r.priority == p))) ∧
    (∀ p : ℤ,
      (sortByPriorityDesc (scored_candidates self routines f)).filter
          (fun r => r.priority == p) =
        (scored_candidates self routines f).filter (fun r => r.priority == p)) := by
  intro self routines f
  by_cases hre : routines.isEmpty
  · unfold recommend_existing_routines
    rw [if_pos hre]
    exact ⟨by norm_num, List.Pairwise.nil,
      fun p => (List.nil_sublist _),
      fun p => filter_sortByPriorityDesc p _⟩
  · unfold recommend_existing_routines
    rw [if_neg hre]
    refine ⟨List.length_take_le 5 _, ?_, ?_, fun p => filter_sortByPriorityDesc p _⟩
    · exact List.Pairwise.sublist (List.take_sublist _ _) (sorted_sortByPriorityDesc _)
    · intro p
      have h1 := List.Sublist.filter (fun r => r.priority == p)
        (List.take_sublist 5 (sortByPriorityDesc (scored_candidates self routines f)))
      rwa [filter_sortByPriorityDesc] at h1

/-- C7: an untrained model (flag false or classifier absent) always
predicts the neutral default pair (0.5, 0.5) and never raises. -/
theorem c7_untrained_predict_neutral (self : SimpleRecommender) (f : Features)
    (h : self.is_trained = false ∨ self.model = none) :
    self.predict f = Except.ok [mkRat 1 2, mkRat 1 2] := by
  unfold SimpleRecommender.predict
  rcases h with h | h
  · rw [h]
  · rw [h]
    cases htr : self.is_trained <;> rfl

/-- Witness for C7: the freshly initialized recommender at a concrete
feature vector. -/
theorem c7_witness :
    untrained_recommender.predict features_scenario_a =
      Except.ok [mkRat 1 2, mkRat 1 2] :=
  c7_untrained_predict_neutral untrained_recommender features_scenario_a (Or.inl rfl)

/-- C8 counterexample: the claim says a candidate whose model prediction
throws gets the rule-based reasoning.  With a trained recommender whose
prediction always raises, the single candidate does get the rule-based
score (5, from neutral features), but its reasoning is the model-path
sentence, not the rule-path one, because the source keys the reasoning on
`use_ml`, not on the per-candidate fallback. -/
theorem c8_counterexample :
    recommend_existing_routines throwing_recommender [sample_routine_row]
        features_zero =
      [{ routine_id := "r1",
         reasoning := "Recommended because " ++ ml_reasoning_text ++ ".",
         priority := 5 }] ∧
    generate_reasoning_for_existing_routine sample_routine_row features_zero
        false =
      "Recommended because this routine matches your current fitness level." ∧
    "Recommended because " ++ ml_reasoning_text ++ "." ≠
      "Recommended because this routine matches your current fitness level." := by
  refine ⟨by decide, by decide, by decide⟩

/-- C8 (amended): when the trained-model path throws during prediction,
every candidate receives the rule-based score and the failure is not
propagated, but the attached reasoning remains the model-path statement
(keyed on `use_ml`), not the rule-path reasoning. -/
theorem c8_fallback_rule_score_model_reasoning
    (m : Features → Except String (List ℚ)) (e : String)
    (routines : List RoutineRow) (f : Features)
    (hm : m f = Except.error e) :
    scored_candidates { model := some m, is_trained := true } routines f =
      routines.map (fun row =>
        { routine_id := row.id
          reasoning := generate_reasoning_for_existing_routine row f true
          priority :=
            min 10 (max 1 (truncToInt (calculate_rule_based_score row f))) }) := by
  unfold scored_candidates candidate_score use_ml SimpleRecommender.predict
  simp [hm]

/-- Witness for C8: the amended theorem at the always-throwing
recommender, one routine and neutral features. -/
theorem c8_witness :
    scored_candidates throwing_recommender [sample_routine_row] features_zero =
      [sample_routine_row].map (fun row =>
        { routine_id := row.id
          reasoning := generate_reasoning_for_existing_routine row features_zero true
          priority :=
            min 10 (max 1 (truncToInt
              (calculate_rule_based_score row features_zero))) }) :=
  c8_fallback_rule_score_model_reasoning throwing_model
    "X has 7 features, but StandardScaler is expecting 2 features as input"
    [sample_routine_row] features_zero rfl

/-- C9: saving an untrained model fails with the `ValueError`
"Model must be trained before saving" and writes nothing (the filesystem
argument is returned unchanged only inside the success case, and the
error case produces no new filesystem); a trained model saves exactly one
artifact at the requested path and never raises that error. -/
theorem c9_save_untrained_fails (self : SimpleRecommender) (filepath : String)
    (fs : List (String × SavedArtifact)) :
    (self.is_trained = false →
      self.save filepath fs =
        Except.error "Model must be trained before saving") ∧
    (self.is_trained = true →
      self.save filepath fs =
        Except.ok ((filepath,
          { model := self.model, is_trained := self.is_trained }) :: fs)) := by
  constructor <;> intro h <;> unfold SimpleRecommender.save <;> rw [h] <;> rfl

/-- Witness for C9: both branches at concrete recommenders and path. -/
theorem c9_witness :
    (untrained_recommender.save "models/recommendation_model.pkl" [] =
      Except.error "Model must be trained before saving") ∧
    (trained_recommender.save "models/recommendation_model.pkl" [] =
      Except.ok [("models/recommendation_model.pkl",
        { model := trained_recommender.model,
          is_trained := trained_recommender.is_trained })]) :=
  ⟨(c9_save_untrained_fails untrained_recommender "models/recommendation_model.pkl" []).1 rfl,
   (c9_save_untrained_fails trained_recommender "models/recommendation_model.pkl" []).2 rfl⟩

/-- With the all-default feature vector no rule condition matches, so the
reasoning for any routine row is the generic fallback sentence. -/
theorem reasoning_features_zero (row : RoutineRow) :
    generate_reasoning_for_existing_routine row features_zero false =
      "Recommended because this routine matches your current fitness level." := by
  simp [generate_reasoning_for_existing_routine,
    (show ¬ (features_zero.completion_rate > mkRat 7 10) by decide),
    (show ¬ (features_zero.avg_time_delta < -60) by decide),
    (show features_zero.has_cardio = false from rfl),
    (show features_zero.has_strength = false from rfl)]
  rfl

/-- C10: with an empty workout history, a non-empty routine library and an
untrained model, the feature vector degrades to all zeros/false, so the
response is exactly the three weakness templates quick-workout (9),
cardio (8), strength (8) in that order, and the first `min(5, n)` library
routines in library order, each at priority 5 with the generic
reasoning. -/
theorem c10_empty_history_defaults (self : SimpleRecommender)
    (routines : List RoutineRow) (hne : routines ≠ [])
    (huse : use_ml self = false) :
    generate_recommendations_core self [] routines =
      { existing_routines :=
          (routines.take 5).map (fun row =>
            { routine_id := row.id
              reasoning := "Recommended because this routine matches your current fitness level."
              priority := 5 })
        new_routines := [create_quick_workout_routine, create_cardio_routine,
          create_strength_routine] } := by
  have hfe : routines.isEmpty = false := by
    cases routines with
    | nil => exact absurd rfl hne
    | cons a l => rfl
  have hfeat : prepare_features_for_ml [] routines = features_zero := rfl
  have hnew : generate_new_routines features_zero =
      [create_quick_workout_routine, create_cardio_routine,
        create_strength_routine] := by decide
  have hcand : scored_candidates self routines features_zero =
      routines.map (fun row =>
        { routine_id := row.id
          reasoning := "Recommended because this routine matches your current fitness level."
          priority := (5:ℤ) }) := by
    unfold scored_candidates candidate_score
    rw [huse]
    refine List.map_congr_left ?_
    intro row hrow
    have hpr : min 10 (max 1 (truncToInt
        (calculate_rule_based_score row features_zero))) = (5:ℤ) := by
      rw [(show calculate_rule_based_score row features_zero = 5 from rfl)]
      decide
    simp only [Bool.false_eq_true, if_false]
    rw [hpr, reasoning_features_zero row]
  have hall : ∀ a ∈ routines.map (fun row =>
      ({ routine_id := row.id
         reasoning := "Recommended because this routine matches your current fitness level."
         priority := (5:ℤ) } : ExistingRoutineRecommendation)), a.priority = (5:ℤ) := by
    intro a ha
    obtain ⟨row, hrow, hrec⟩ := List.mem_map.mp ha
    rw [← hrec]
  have hexist : recommend_existing_routines self routines features_zero =
      (routines.take 5).map (fun row =>
        { routine_id := row.id
          reasoning := "Recommended because this routine matches your current fitness level."
          priority := (5:ℤ) }) := by
    unfold recommend_existing_routines
    rw [if_neg (by rw [hfe]; exact Bool.false_ne_true), hcand,
      sortByPriorityDesc_all_eq hall, List.map_take]
  simp only [generate_recommendations_core, List.isEmpty_nil, Bool.true_and,
    hfe, Bool.false_eq_true, if_false, hfeat, hexist, hnew]

/-- Witness for C10: the theorem at the untrained recommender and a
one-routine library. -/
theorem c10_witness :
    generate_recommendations_core untrained_recommender [] [sample_routine_row] =
      { existing_routines :=
          ([sample_routine_row].take 5).map (fun row =>
            { routine_id := row.id
              reasoning := "Recommended because this routine matches your current fitness level."
              priority := 5 })
        new_routines := [create_quick_workout_routine, create_cardio_routine,
          create_strength_routine] } :=
  c10_empty_history_defaults untrained_recommender [sample_routine_row]
    (List.cons_ne_nil _ _) rfl
